import Mathlib

/-!
Shallow embedding of `pyarx.py`, a thin ctypes binding around the Logitech
Arx Control native library.  Python strings are modelled as Lean `String`s
with slicing and length taken on the underlying character list; the native
library is modelled as an oracle supplying the integer return value of the
invoked export and the "last error" code; observable side effects (native
calls with their marshalled arguments, last-error queries, log warnings,
the settle sleep) are recorded in an event trace.  Python exceptions are
modelled with `Except`.
-/

/-- Python string slice `s[:n]`. -/
def pyTake (s : String) (n : Nat) : String := String.mk (s.data.take n)

/-- Python `len(s)`. -/
def pyLen (s : String) : Nat := s.data.length

/-- A marshalled argument of a native call (`ctypes` value). -/
inductive PyVal
  | str (s : String)
  | intVal (n : Int)
  | ptr (addr : Int)
  | callbackRef
  deriving DecidableEq, Repr

/-- Exceptions raised by the wrapper. -/
inductive PyErr
  | arxControlError
  | arxControlShutdownError
  | fileNotFoundError
  deriving DecidableEq, Repr

instance instDecidableEqExcept {ε α : Type} [DecidableEq ε] [DecidableEq α] :
    DecidableEq (Except ε α) := fun a b =>
  match a, b with
  | Except.ok x, Except.ok y =>
    if h : x = y then isTrue (by rw [h]) else isFalse (by simp [h])
  | Except.ok _, Except.error _ => isFalse (by simp)
  | Except.error _, Except.ok _ => isFalse (by simp)
  | Except.error x, Except.error y =>
    if h : x = y then isTrue (by rw [h]) else isFalse (by simp [h])

set_option maxRecDepth 8192

/-- Observable effects of a wrapper method. -/
inductive Event
  | nativeCall (funcName : String) (args : List PyVal)
  | getLastError
  | warnTruncate (limit : Nat) (text : String)
  | warnCallError (funcName : String) (errorCode : Int)
  | sleepOneSecond
  deriving DecidableEq, Repr

namespace DEF

def ERROR_CODE_SUCCESS : Int := 0

def ERROR_CODE_WRONG_PARAM_FORMAT : Int := 1

def ERROR_CODE_NULL_NOT_SUPPORTED : Int := 2

def ERROR_CODE_WRONG_FILE_PATH : Int := 3

def ERROR_CODE_SDK_NOT_INITIALIZED : Int := 4

def ERROR_CODE_SDK_INITIALIZED : Int := 5

def ERROR_CODE_CONN_BROKEN : Int := 6

def ERROR_CODE_FAILED_CREATE_THREAD : Int := 7

def ERROR_CODE_FAILED_COPY_MEMORY : Int := 8

end DEF

/-- `get_default_arx_dll`: default dll path under the installed Logitech
Gaming Software, or `none` when the file does not exist.  The environment
(`ProgramW6432` / `ProgramFiles` variables, 32-bitness of the platform) and
the filesystem existence check are passed in as parameters. -/
def get_default_arx_dll (programW6432 : Option String) (programFiles : String)
    (is32bit : Bool) (fileExists : String → Bool) : Option String :=
  let system_arch := if is32bit then "x86" else "x64"
  let program_files_path :=
    match programW6432 with
    | some p => p
    | none => programFiles
  let dll_path := program_files_path ++ "\\Logitech Gaming Software\\SDK\\Arx Control\\"
      ++ system_arch ++ "\\LogitechGArxControl.dll"
  if fileExists dll_path then some dll_path else none

/-- `_text_limit(text, limit)`: warns when `len(text) > 128` (the `limit`
argument appears only in the warning message) and returns `text[:128]`. -/
def _text_limit (text : String) (limit : Nat) : String × List Event :=
  if pyLen text > 128 then
    (pyTake text 128, [Event.warnTruncate limit text])
  else
    (pyTake text 128, [])

/-- Python `a or b` on the dll-path argument: `None` and `''` are falsy. -/
def pyStrOr (a : Option String) (b : Option String) : Option String :=
  match a with
  | none => b
  | some s => if s = "" then b else some s

/-- The fields of a constructed `ArxControl` instance. -/
structure ArxState where
  app_name : String
  friendly_name : String
  dll_path : String
  deriving DecidableEq, Repr

namespace ArxControl

/-- `ArxControl.__init__`: truncates `app_name` and `friendly_name` with a
bare slice (no warning), resolves the dll path (`dll_path or
get_default_arx_dll()`), and raises `FileNotFoundError` when no path
resolves or the resolved path does not exist.  The constructor performs no
logging, so its event trace is always empty. -/
def construct (app_name friendly_name : String) (dll_path : Option String)
    (programW6432 : Option String) (programFiles : String) (is32bit : Bool)
    (fileExists : String → Bool) : Except PyErr ArxState × List Event :=
  let a := pyTake app_name 128
  let f := pyTake friendly_name 128
  let dp := pyStrOr dll_path (get_default_arx_dll programW6432 programFiles is32bit fileExists)
  match dp with
  | none => (Except.error PyErr.fileNotFoundError, [])
  | some p =>
    if p = "" then (Except.error PyErr.fileNotFoundError, [])
    else if fileExists p then (Except.ok ⟨a, f, p⟩, [])
    else (Except.error PyErr.fileNotFoundError, [])

/-- `ArxControl.shutdown`: unconditionally invokes the native shutdown
export. -/
def shutdown : List Event := [Event.nativeCall "LogiArxShutdown" []]

/-- `ArxControl._call(func_name, *args)`: invoke the export; on a zero
return query the last error; if it is `SDK_INITIALIZED` return the zero
unchanged; otherwise warn, and if it is `CONN_BROKEN` call `shutdown()` and
raise `ArxControlShutdownError`; in every non-raising case return the
native value.  `retVal` and `lastError` are the oracle for what the native
layer answers. -/
def _call (funcName : String) (args : List PyVal) (retVal lastError : Int) :
    Except PyErr Int × List Event :=
  if retVal = 0 then
    if lastError = DEF.ERROR_CODE_SDK_INITIALIZED then
      (Except.ok retVal, [Event.nativeCall funcName args, Event.getLastError])
    else if lastError = DEF.ERROR_CODE_CONN_BROKEN then
      (Except.error PyErr.arxControlShutdownError,
        [Event.nativeCall funcName args, Event.getLastError,
         Event.warnCallError funcName lastError] ++ ArxControl.shutdown)
    else
      (Except.ok retVal,
        [Event.nativeCall funcName args, Event.getLastError,
         Event.warnCallError funcName lastError])
  else
    (Except.ok retVal, [Event.nativeCall funcName args])

/-- `ArxControl.init`: marshals the stored names and the callback, forwards
through `_call` to `LogiArxInit`, sleeps one second when the returned flag
is truthy, and returns the flag. -/
def init (app_name friendly_name : String) (retVal lastError : Int) :
    Except PyErr Int × List Event :=
  let c := _call "LogiArxInit"
      [PyVal.str app_name, PyVal.str friendly_name, PyVal.callbackRef] retVal lastError
  match c.1 with
  | Except.ok v =>
    if v ≠ 0 then (Except.ok v, c.2 ++ [Event.sleepOneSecond]) else (Except.ok v, c.2)
  | Except.error e => (Except.error e, c.2)

/-- `ArxControl.add_string_as`: truncates only `filename` (limit argument
256) and invokes `LogiArxAddUTF8StringAs` directly on the dll handle,
bypassing `_call`: the raw native value is returned with no error check. -/
def add_string_as (string filename mime_type : String) (retVal : Int) :
    Except PyErr Int × List Event :=
  let fn := _text_limit filename 256
  (Except.ok retVal,
    fn.2 ++ [Event.nativeCall "LogiArxAddUTF8StringAs"
      [PyVal.str string, PyVal.str fn.1, PyVal.str mime_type]])

/-- `ArxControl.set_index`: truncates `filename` (limit argument 256) and
invokes `LogiArxSetIndex` directly on the dll handle, bypassing `_call`. -/
def set_index (filename : String) (retVal : Int) :
    Except PyErr Int × List Event :=
  let fn := _text_limit filename 256
  (Except.ok retVal,
    fn.2 ++ [Event.nativeCall "LogiArxSetIndex" [PyVal.str fn.1]])

/-- `ArxControl.add_file_as`: truncates `filepath` and `filename` (limit
argument 256 each) and forwards `LogiArxAddFileAs` through `_call`. -/
def add_file_as (filepath filename mime_type : String) (retVal lastError : Int) :
    Except PyErr Int × List Event :=
  let fp := _text_limit filepath 256
  let fn := _text_limit filename 256
  let c := _call "LogiArxAddFileAs"
      [PyVal.str fp.1, PyVal.str fn.1, PyVal.str mime_type] retVal lastError
  (c.1, fp.2 ++ fn.2 ++ c.2)

/-- `ArxControl.add_content_as`: marshals the memory block and size,
truncates `filename` (limit argument 256) and forwards `LogiArxAddContentAs`
through `_call`. -/
def add_content_as (content size : Int) (filename mime_type : String)
    (retVal lastError : Int) : Except PyErr Int × List Event :=
  let fn := _text_limit filename 256
  let c := _call "LogiArxAddContentAs"
      [PyVal.ptr content, PyVal.intVal size, PyVal.str fn.1, PyVal.str mime_type]
      retVal lastError
  (c.1, fn.2 ++ c.2)

/-- `ArxControl.set_tag_property_by_id`: truncates `tag_id` and `prop`
(default limit argument 128) and `new_value` (limit argument 256), then
forwards `LogiArxSetTagPropertyById` through `_call`. -/
def set_tag_property_by_id (tag_id prop new_value : String) (retVal lastError : Int) :
    Except PyErr Int × List Event :=
  let t := _text_limit tag_id 128
  let p := _text_limit prop 128
  let v := _text_limit new_value 256
  let c := _call "LogiArxSetTagPropertyById"
      [PyVal.str t.1, PyVal.str p.1, PyVal.str v.1] retVal lastError
  (c.1, t.2 ++ p.2 ++ v.2 ++ c.2)

/-- `ArxControl.set_tag_propery_by_class` (source spelling): truncates
`tag_class` and `prop` (default limit argument 128) and `new_value` (limit
argument 256), then forwards `LogiArxSetTagsPropertyByClass` through
`_call`. -/
def set_tag_propery_by_class (tag_class prop new_value : String) (retVal lastError : Int) :
    Except PyErr Int × List Event :=
  let t := _text_limit tag_class 128
  let p := _text_limit prop 128
  let v := _text_limit new_value 256
  let c := _call "LogiArxSetTagsPropertyByClass"
      [PyVal.str t.1, PyVal.str p.1, PyVal.str v.1] retVal lastError
  (c.1, t.2 ++ p.2 ++ v.2 ++ c.2)

/-- `ArxControl.set_tag_content_by_id`: truncates `tag_id` (default limit
argument 128), passes `new_content` through unchanged, and forwards
`LogiArxSetTagContentById` through `_call`. -/
def set_tag_content_by_id (tag_id new_content : String) (retVal lastError : Int) :
    Except PyErr Int × List Event :=
  let t := _text_limit tag_id 128
  let c := _call "LogiArxSetTagContentById"
      [PyVal.str t.1, PyVal.str new_content] retVal lastError
  (c.1, t.2 ++ c.2)

/-- `ArxControl.set_tag_content_by_class`: truncates `tag_class` (default
limit argument 128), passes `new_content` through unchanged, and forwards
`LogiArxSetTagsContentByClass` through `_call`. -/
def set_tag_content_by_class (tag_class new_content : String) (retVal lastError : Int) :
    Except PyErr Int × List Event :=
  let t := _text_limit tag_class 128
  let c := _call "LogiArxSetTagsContentByClass"
      [PyVal.str t.1, PyVal.str new_content] retVal lastError
  (c.1, t.2 ++ c.2)

/-- `ArxControl.__enter__`: runs `init()`; raises `ArxControlError` when the
returned flag is falsy; propagates whatever `init()` raises. -/
def enter (app_name friendly_name : String) (retVal lastError : Int) :
    Except PyErr Int × List Event :=
  let i := init app_name friendly_name retVal lastError
  match i.1 with
  | Except.ok v =>
    if v = 0 then (Except.error PyErr.arxControlError, i.2) else (Except.ok v, i.2)
  | Except.error e => (Except.error e, i.2)

/-- `ArxControl.__exit__`: calls `shutdown()` regardless of how the body
ended. -/
def exitScope : List Event := shutdown

/-- A `with ArxControl(...) as arx:` block: runs `__enter__`; if it raises,
the body never runs and `__exit__` is not called; otherwise the body runs
and `__exit__` (which calls `shutdown()`) runs afterwards whatever the body
outcome, the body's result (value or exception) being passed on. -/
def withScope (app_name friendly_name : String) (retVal lastError : Int)
    (body : Except PyErr Int × List Event) : Except PyErr Int × List Event :=
  let e := enter app_name friendly_name retVal lastError
  match e.1 with
  | Except.error err => (Except.error err, e.2)
  | Except.ok _ => (body.1, e.2 ++ body.2 ++ exitScope)

end ArxControl

/-! ## Concrete long inputs used by closed theorems -/

/-- A 300-character path, longer than the 256-character documented cap. -/
def longPath300 : String := String.mk (List.replicate 300 'a')

/-- A 200-character name, longer than the 128-character cap. -/
def longName200 : String := String.mk (List.replicate 200 'b')

/-- The native-call event of a forwarding call is always in its `_call`
trace, whichever branch the error check takes. -/
theorem mem_call_trace (funcName : String) (args : List PyVal) (retVal lastError : Int) :
    Event.nativeCall funcName args ∈ (ArxControl._call funcName args retVal lastError).2 := by
  unfold ArxControl._call
  split
  · split
    · simp
    · split <;> simp
  · simp

/-! ## Claims -/

/-- C9: `_text_limit(s, limit)` returns the first 128 characters of `s` and
warns exactly when `s` is longer than 128 characters; the `limit` argument
affects neither the returned value nor the warning condition. -/
theorem text_limit_ignores_limit_argument (text : String) (limit limit2 : Nat) :
    (_text_limit text limit).1 = pyTake text 128 ∧
    ((_text_limit text limit).2 = [Event.warnTruncate limit text] ↔ 128 < pyLen text) ∧
    ((_text_limit text limit).2 = [] ↔ ¬ 128 < pyLen text) ∧
    (_text_limit text limit).1 = (_text_limit text limit2).1 ∧
    ((_text_limit text limit).2 = [] ↔ (_text_limit text limit2).2 = []) := by
  unfold _text_limit
  by_cases h : 128 < pyLen text <;> simp [h]

/-- C1: evaluating `add_file_as` at a 300-character filepath (a field whose
documented cap is 256): the warning is emitted, but the value forwarded to
the native export has length 128, not 256, because `_text_limit` compares
and slices with the constant 128 regardless of its `limit` argument. -/
theorem limit256_field_forwarded_with_128_chars :
    pyLen longPath300 = 300 ∧
    ArxControl.add_file_as longPath300 "index.html" "text/html" 1 0 =
      (Except.ok 1,
       [Event.warnTruncate 256 longPath300,
        Event.nativeCall "LogiArxAddFileAs"
          [PyVal.str (pyTake longPath300 128), PyVal.str "index.html",
           PyVal.str "text/html"]]) ∧
    pyLen (pyTake longPath300 128) = 128 := by
  refine ⟨by decide, by decide, by decide⟩

/-- C2 counterexample: with a zero native return and last error
`SDK_INITIALIZED`, `_call` hands the zero value itself back to the caller —
the native failure signal, not a success — so a caller checking for
success, such as `__enter__`, still treats the call as failed. -/
theorem sdk_initialized_still_reports_zero :
    (ArxControl._call "LogiArxInit"
        [PyVal.str "a", PyVal.str "f", PyVal.callbackRef]
        0 DEF.ERROR_CODE_SDK_INITIALIZED).1 = Except.ok 0 ∧
    (ArxControl.enter "a" "f" 0 DEF.ERROR_CODE_SDK_INITIALIZED).1 =
      Except.error PyErr.arxControlError := by
  refine ⟨by decide, by decide⟩

/-- C2 (amended): when the native return is zero and the last error is
`SDK_INITIALIZED`, `_call` suppresses the warning and the fatal-error
handling and returns the zero native value unchanged, after the single
last-error query. -/
theorem sdk_initialized_suppresses_error_handling (funcName : String) (args : List PyVal) :
    ArxControl._call funcName args 0 DEF.ERROR_CODE_SDK_INITIALIZED =
      (Except.ok 0, [Event.nativeCall funcName args, Event.getLastError]) := by
  rfl

/-- C3 counterexample: `add_string_as` bypasses the shared error-check
policy: on a zero native return it neither queries the last error nor
raises, returning the raw zero, while the policy applied to the same
export with last error `CONN_BROKEN` raises the fatal error. -/
theorem add_string_as_bypasses_policy :
    (ArxControl.add_string_as "body" "index.html" "text/html" 0).1 = Except.ok 0 ∧
    Event.getLastError ∉ (ArxControl.add_string_as "body" "index.html" "text/html" 0).2 ∧
    (ArxControl._call "LogiArxAddUTF8StringAs"
        [PyVal.str "body", PyVal.str "index.html", PyVal.str "text/html"]
        0 DEF.ERROR_CODE_CONN_BROKEN).1 =
      Except.error PyErr.arxControlShutdownError := by
  refine ⟨by decide, by decide, by decide⟩

/-- C3 (amended): the shared error-check policy is applied by `init`,
`add_file_as`, `add_content_as` and the four `set_tag_*` methods, whose
results and native interactions are exactly those of `_call` on their
export; `add_string_as` and `set_index` are the exception: they invoke
their export directly and return the raw native value without ever
querying the last error. -/
theorem error_check_policy_coverage (string filepath filename mime_type tag_id
    tag_class prop new_value new_content app_name friendly_name : String)
    (content size retVal lastError : Int) :
    ((ArxControl.init app_name friendly_name retVal lastError).1 =
      (ArxControl._call "LogiArxInit"
        [PyVal.str app_name, PyVal.str friendly_name, PyVal.callbackRef]
        retVal lastError).1) ∧
    (ArxControl.add_file_as filepath filename mime_type retVal lastError =
      ((ArxControl._call "LogiArxAddFileAs"
          [PyVal.str (_text_limit filepath 256).1, PyVal.str (_text_limit filename 256).1,
           PyVal.str mime_type] retVal lastError).1,
       (_text_limit filepath 256).2 ++ (_text_limit filename 256).2 ++
        (ArxControl._call "LogiArxAddFileAs"
          [PyVal.str (_text_limit filepath 256).1, PyVal.str (_text_limit filename 256).1,
           PyVal.str mime_type] retVal lastError).2)) ∧
    ((ArxControl.add_content_as content size filename mime_type retVal lastError).1 =
      (ArxControl._call "LogiArxAddContentAs"
        [PyVal.ptr content, PyVal.intVal size, PyVal.str (_text_limit filename 256).1,
         PyVal.str mime_type] retVal lastError).1) ∧
    ((ArxControl.set_tag_property_by_id tag_id prop new_value retVal lastError).1 =
      (ArxControl._call "LogiArxSetTagPropertyById"
        [PyVal.str (_text_limit tag_id 128).1, PyVal.str (_text_limit prop 128).1,
         PyVal.str (_text_limit new_value 256).1] retVal lastError).1) ∧
    ((ArxControl.set_tag_propery_by_class tag_class prop new_value retVal lastError).1 =
      (ArxControl._call "LogiArxSetTagsPropertyByClass"
        [PyVal.str (_text_limit tag_class 128).1, PyVal.str (_text_limit prop 128).1,
         PyVal.str (_text_limit new_value 256).1] retVal lastError).1) ∧
    ((ArxControl.set_tag_content_by_id tag_id new_content retVal lastError).1 =
      (ArxControl._call "LogiArxSetTagContentById"
        [PyVal.str (_text_limit tag_id 128).1, PyVal.str new_content] retVal lastError).1) ∧
    ((ArxControl.set_tag_content_by_class tag_class new_content retVal lastError).1 =
      (ArxControl._call "LogiArxSetTagsContentByClass"
        [PyVal.str (_text_limit tag_class 128).1, PyVal.str new_content] retVal lastError).1) ∧
    (ArxControl.add_string_as string filename mime_type retVal).1 = Except.ok retVal ∧
    Event.getLastError ∉ (ArxControl.add_string_as string filename mime_type retVal).2 ∧
    (ArxControl.set_index filename retVal).1 = Except.ok retVal ∧
    Event.getLastError ∉ (ArxControl.set_index filename retVal).2 := by
  refine ⟨?_, rfl, rfl, rfl, rfl, rfl, rfl, rfl, ?_, rfl, ?_⟩
  · unfold ArxControl.init
    rcases (ArxControl._call "LogiArxInit"
        [PyVal.str app_name, PyVal.str friendly_name, PyVal.callbackRef]
        retVal lastError) with ⟨r, tr⟩
    rcases r with e | v
    · rfl
    · by_cases hv : v = 0 <;> simp [hv]
  · unfold ArxControl.add_string_as _text_limit
    by_cases h : 128 < pyLen filename <;> simp [h]
  · unfold ArxControl.set_index _text_limit
    by_cases h : 128 < pyLen filename <;> simp [h]

/-- C4: on a zero native return with last error `CONN_BROKEN`, `_call`
invokes the native shutdown export (the final event of its trace, i.e.
before the error is surfaced by returning) and raises
`ArxControlShutdownError` instead of handing back the zero failure code. -/
theorem conn_broken_shutdown_then_fatal (funcName : String) (args : List PyVal)
    (retVal lastError : Int) (hret : retVal = 0)
    (herr : lastError = DEF.ERROR_CODE_CONN_BROKEN) :
    ArxControl._call funcName args retVal lastError =
      (Except.error PyErr.arxControlShutdownError,
       [Event.nativeCall funcName args, Event.getLastError,
        Event.warnCallError funcName lastError] ++ ArxControl.shutdown) := by
  subst hret herr
  rfl

/-- Witness for C4 at a concrete forwarding call. -/
theorem conn_broken_shutdown_then_fatal_witness :
    ArxControl._call "LogiArxAddFileAs" [PyVal.str "p", PyVal.str "f", PyVal.str ""]
        0 DEF.ERROR_CODE_CONN_BROKEN =
      (Except.error PyErr.arxControlShutdownError,
       [Event.nativeCall "LogiArxAddFileAs" [PyVal.str "p", PyVal.str "f", PyVal.str ""],
        Event.getLastError,
        Event.warnCallError "LogiArxAddFileAs" DEF.ERROR_CODE_CONN_BROKEN] ++
       ArxControl.shutdown) :=
  conn_broken_shutdown_then_fatal "LogiArxAddFileAs"
    [PyVal.str "p", PyVal.str "f", PyVal.str ""] 0 DEF.ERROR_CODE_CONN_BROKEN rfl rfl

/-- C5 counterexample: constructing with a 200-character application
identifier and display name truncates both to 128 characters, yet the
constructor's event trace is empty: no warning is logged. -/
theorem constructor_truncates_with_no_warning :
    pyLen longName200 = 200 ∧
    ArxControl.construct longName200 longName200 (some "arx.dll") none "C:" false
        (fun _ => true) =
      (Except.ok ⟨pyTake longName200 128, pyTake longName200 128, "arx.dll"⟩, []) ∧
    pyLen (pyTake longName200 128) = 128 := by
  refine ⟨by decide, by decide, by decide⟩

/-- C5 (amended): the constructor truncates the application identifier and
the display name to at most 128 characters silently: its event trace is
always empty, so no warning is ever logged for them. -/
theorem constructor_truncates_silently (app_name friendly_name : String)
    (dll_path programW6432 : Option String) (programFiles : String)
    (is32bit : Bool) (fileExists : String → Bool) :
    pyLen (pyTake app_name 128) = min 128 (pyLen app_name) ∧
    (ArxControl.construct app_name friendly_name dll_path programW6432 programFiles
        is32bit fileExists).2 = [] ∧
    (∀ st, (ArxControl.construct app_name friendly_name dll_path programW6432 programFiles
        is32bit fileExists).1 = Except.ok st →
      st.app_name = pyTake app_name 128 ∧ st.friendly_name = pyTake friendly_name 128) := by
  refine ⟨by simp [pyLen, pyTake], ?_, ?_⟩
  · unfold ArxControl.construct
    rcases pyStrOr dll_path
        (get_default_arx_dll programW6432 programFiles is32bit fileExists) with _ | p
    · rfl
    · by_cases hp : p = "" <;> by_cases hf : fileExists p <;> simp [hp, hf]
  · intro st hst
    unfold ArxControl.construct at hst
    rcases hd : pyStrOr dll_path
        (get_default_arx_dll programW6432 programFiles is32bit fileExists) with _ | p
    · rw [hd] at hst
      simp at hst
    · rw [hd] at hst
      by_cases hp : p = ""
      · simp [hp] at hst
      · by_cases hf : fileExists p
        · simp [hp, hf] at hst
          subst hst
          exact ⟨rfl, rfl⟩
        · simp [hp, hf] at hst

/-- Witness for C5 (amended) at a concrete construction. -/
theorem constructor_truncates_silently_witness :
    (ArxControl.construct "app" "friendly" (some "arx.dll") none "C:" false
        (fun _ => true)).2 = [] ∧
    (ArxState.mk "app" "friendly" "arx.dll").app_name = pyTake "app" 128 := by
  have h := constructor_truncates_silently "app" "friendly" (some "arx.dll") none "C:"
    false (fun _ => true)
  exact ⟨h.2.1, (h.2.2 (ArxState.mk "app" "friendly" "arx.dll") (by decide)).1⟩

/-- C6: a scoped session: when `init()` returns the falsy flag, `__enter__`
raises `ArxControlError` and the body and `__exit__` never run; when
`init()` raises, the exception propagates and the body never runs; when
`init()` reports success, the body runs and `__exit__` calls `shutdown()`
afterwards whatever the body's outcome (its value or exception is passed
on unchanged). -/
theorem scoped_session_behavior (app_name friendly_name : String)
    (retVal lastError : Int) (body : Except PyErr Int × List Event) :
    ((ArxControl.init app_name friendly_name retVal lastError).1 = Except.ok 0 →
      ArxControl.withScope app_name friendly_name retVal lastError body =
        (Except.error PyErr.arxControlError,
         (ArxControl.init app_name friendly_name retVal lastError).2)) ∧
    (∀ e, (ArxControl.init app_name friendly_name retVal lastError).1 = Except.error e →
      ArxControl.withScope app_name friendly_name retVal lastError body =
        (Except.error e, (ArxControl.init app_name friendly_name retVal lastError).2)) ∧
    (∀ v, v ≠ 0 →
      (ArxControl.init app_name friendly_name retVal lastError).1 = Except.ok v →
      ArxControl.withScope app_name friendly_name retVal lastError body =
        (body.1, (ArxControl.init app_name friendly_name retVal lastError).2 ++ body.2 ++
          ArxControl.exitScope)) := by
  refine ⟨?_, ?_, ?_⟩
  · intro h0
    simp [ArxControl.withScope, ArxControl.enter, h0]
  · intro e he
    simp [ArxControl.withScope, ArxControl.enter, he]
  · intro v hv hok
    simp [ArxControl.withScope, ArxControl.enter, hok, hv]

/-- Witness for C6: with a zero handshake flag the scope raises the
initialization error without running the body or shutting down. -/
theorem scoped_session_behavior_witness :
    ArxControl.withScope "app" "friendly" 0 DEF.ERROR_CODE_SUCCESS
        (Except.ok 1, [Event.getLastError]) =
      (Except.error PyErr.arxControlError,
       (ArxControl.init "app" "friendly" 0 DEF.ERROR_CODE_SUCCESS).2) := by
  have h := scoped_session_behavior "app" "friendly" 0 DEF.ERROR_CODE_SUCCESS
    (Except.ok 1, [Event.getLastError])
  exact h.1 (by decide)

/-- C7: the dll path resolves to the caller-supplied override when one is
given (construction then succeeding exactly when that file exists, and
failing with `FileNotFoundError` otherwise); with no override any
successful construction uses the default install location probed by
`get_default_arx_dll`; and with no override and no installed SDK the
construction fails with `FileNotFoundError`. -/
theorem dll_path_resolution (app_name friendly_name : String)
    (programW6432 : Option String) (programFiles : String) (is32bit : Bool)
    (fileExists : String → Bool) :
    (∀ p, p ≠ "" →
      (ArxControl.construct app_name friendly_name (some p) programW6432 programFiles
          is32bit fileExists).1 =
        (if fileExists p then
          Except.ok ⟨pyTake app_name 128, pyTake friendly_name 128, p⟩
         else Except.error PyErr.fileNotFoundError)) ∧
    (∀ st, (ArxControl.construct app_name friendly_name none programW6432 programFiles
        is32bit fileExists).1 = Except.ok st →
      get_default_arx_dll programW6432 programFiles is32bit fileExists =
        some st.dll_path ∧ fileExists st.dll_path = true) ∧
    (get_default_arx_dll programW6432 programFiles is32bit fileExists = none →
      (ArxControl.construct app_name friendly_name none programW6432 programFiles
          is32bit fileExists).1 = Except.error PyErr.fileNotFoundError) := by
  refine ⟨?_, ?_, ?_⟩
  · intro p hp
    by_cases hf : fileExists p <;>
      simp [ArxControl.construct, pyStrOr, hp, hf]
  · intro st hst
    unfold ArxControl.construct at hst
    rcases hd : pyStrOr none
        (get_default_arx_dll programW6432 programFiles is32bit fileExists) with _ | p
    · rw [hd] at hst
      simp at hst
    · rw [hd] at hst
      by_cases hp : p = ""
      · simp [hp] at hst
      · by_cases hf : fileExists p
        · simp [hp, hf] at hst
          subst hst
          exact ⟨hd, hf⟩
        · simp [hp, hf] at hst
  · intro hnone
    simp [ArxControl.construct, pyStrOr, hnone]

/-- Witness for C7: an override naming a missing file yields
`FileNotFoundError`. -/
theorem dll_path_resolution_witness :
    (ArxControl.construct "app" "friendly" (some "missing.dll") none "C:" false
        (fun _ => false)).1 = Except.error PyErr.fileNotFoundError := by
  have h := dll_path_resolution "app" "friendly" none "C:" false (fun _ => false)
  have h1 := h.1 "missing.dll" (by decide)
  simpa using h1

/-- C8: `init()` performs the handshake by the `LogiArxInit` export with
the two names and the callback reference as its first action; any flag it
returns is the native flag; and the one-second settle sleep happens exactly
when that flag is truthy, as the last action before returning. -/
theorem init_handshake_and_settle (app_name friendly_name : String)
    (retVal lastError : Int) :
    (ArxControl.init app_name friendly_name retVal lastError).2.head? =
      some (Event.nativeCall "LogiArxInit"
        [PyVal.str app_name, PyVal.str friendly_name, PyVal.callbackRef]) ∧
    (∀ v, (ArxControl.init app_name friendly_name retVal lastError).1 = Except.ok v →
      v = retVal) ∧
    (Event.sleepOneSecond ∈ (ArxControl.init app_name friendly_name retVal lastError).2 ↔
      retVal ≠ 0) ∧
    (retVal ≠ 0 →
      (ArxControl.init app_name friendly_name retVal lastError).2 =
        (ArxControl._call "LogiArxInit"
          [PyVal.str app_name, PyVal.str friendly_name, PyVal.callbackRef]
          retVal lastError).2 ++ [Event.sleepOneSecond]) := by
  unfold ArxControl.init ArxControl._call
  by_cases hr : retVal = 0
  · subst hr
    by_cases h5 : lastError = DEF.ERROR_CODE_SDK_INITIALIZED
    · simp [h5]
    · by_cases h6 : lastError = DEF.ERROR_CODE_CONN_BROKEN
      · simp [h5, h6, DEF.ERROR_CODE_SDK_INITIALIZED, DEF.ERROR_CODE_CONN_BROKEN,
          ArxControl.shutdown]
      · simp [h5, h6]
  · simp [hr]

/-- Witness for C8: a truthy handshake flag makes the settle sleep the last
recorded action of `init()`. -/
theorem init_handshake_and_settle_witness :
    (ArxControl.init "app" "friendly" 1 DEF.ERROR_CODE_SUCCESS).2 =
      (ArxControl._call "LogiArxInit"
        [PyVal.str "app", PyVal.str "friendly", PyVal.callbackRef]
        1 DEF.ERROR_CODE_SUCCESS).2 ++ [Event.sleepOneSecond] := by
  have h := init_handshake_and_settle "app" "friendly" 1 DEF.ERROR_CODE_SUCCESS
  exact h.2.2.2 (by decide)

/-- C10: content payload strings reach the native call unchanged whatever
their length: the content string and mime type of `add_string_as`, the
mime types of `add_file_as` and `add_content_as`, and the `new_content` of
`set_tag_content_by_id` and `set_tag_content_by_class` appear verbatim
among the marshalled arguments (only the separately-capped fields go
through `_text_limit`). -/
theorem payload_strings_forwarded_unchanged (string filepath filename mime_type
    tag_id tag_class new_content : String) (content size retVal lastError : Int) :
    Event.nativeCall "LogiArxAddUTF8StringAs"
        [PyVal.str string, PyVal.str (_text_limit filename 256).1, PyVal.str mime_type]
      ∈ (ArxControl.add_string_as string filename mime_type retVal).2 ∧
    Event.nativeCall "LogiArxAddFileAs"
        [PyVal.str (_text_limit filepath 256).1, PyVal.str (_text_limit filename 256).1,
         PyVal.str mime_type]
      ∈ (ArxControl.add_file_as filepath filename mime_type retVal lastError).2 ∧
    Event.nativeCall "LogiArxAddContentAs"
        [PyVal.ptr content, PyVal.intVal size, PyVal.str (_text_limit filename 256).1,
         PyVal.str mime_type]
      ∈ (ArxControl.add_content_as content size filename mime_type retVal lastError).2 ∧
    Event.nativeCall "LogiArxSetTagContentById"
        [PyVal.str (_text_limit tag_id 128).1, PyVal.str new_content]
      ∈ (ArxControl.set_tag_content_by_id tag_id new_content retVal lastError).2 ∧
    Event.nativeCall "LogiArxSetTagsContentByClass"
        [PyVal.str (_text_limit tag_class 128).1, PyVal.str new_content]
      ∈ (ArxControl.set_tag_content_by_class tag_class new_content retVal lastError).2 := by
  refine ⟨?_, ?_, ?_, ?_, ?_⟩
  · unfold ArxControl.add_string_as
    simp
  · unfold ArxControl.add_file_as
    simp only [List.mem_append]
    exact Or.inr (mem_call_trace _ _ retVal lastError)
  · unfold ArxControl.add_content_as
    simp only [List.mem_append]
    exact Or.inr (mem_call_trace _ _ retVal lastError)
  · unfold ArxControl.set_tag_content_by_id
    simp only [List.mem_append]
    exact Or.inr (mem_call_trace _ _ retVal lastError)
  · unfold ArxControl.set_tag_content_by_class
    simp only [List.mem_append]
    exact Or.inr (mem_call_trace _ _ retVal lastError)

/-- Witness for C3 (amended) at a concrete bypassing call. -/
theorem error_check_policy_coverage_witness :
    (ArxControl.set_index "index.html" 0).1 = Except.ok 0 ∧
    Event.getLastError ∉ (ArxControl.set_index "index.html" 0).2 := by
  have h := error_check_policy_coverage "s" "p" "index.html" "" "t" "c" "pr" "v" "n"
    "a" "f" 0 0 0 0
  exact ⟨h.2.2.2.2.2.2.2.2.2.1, h.2.2.2.2.2.2.2.2.2.2⟩

/-- Witness for C9 at a concrete long input and a non-default limit. -/
theorem text_limit_ignores_limit_argument_witness :
    (_text_limit longName200 256).1 = pyTake longName200 128 ∧
    (_text_limit longName200 256).1 = (_text_limit longName200 64).1 := by
  have h := text_limit_ignores_limit_argument longName200 256 64
  exact ⟨h.1, h.2.2.2.1⟩
